import Mathlib

/-!
Verification of the kicanvas schematic field placement engine
(`src/text/sch_field.ts`, class `SchField`).

The class depends on a handful of small math/text primitives that live in
other modules of the repository (`Vec2`, `Angle`, `Matrix3`, `BBox`,
`EDAText`).  Those modules are not part of the sources under verification,
so they are modelled here from the specification's data model (spec
sections 3, 4 and 6); each such definition carries a doc comment saying so.
`SchField` itself is translated line by line from `sch_field.ts`.

Numbers are modelled as exact rationals.  The `console.log` calls present
in `SchField.bounding_box` and `SchField.is_vert_justify_flipped` are
modelled as an explicit trace of log events returned next to the value.
-/

/-- Modelled from the spec: `Vec2` (`src/base/math/vec2.ts`, not among the
sources under verification) — an immutable 2D point/vector with
component-wise add/sub (spec section 3). -/
structure Vec2 where
  x : ℚ
  y : ℚ
  deriving DecidableEq

def Vec2.add (a b : Vec2) : Vec2 := ⟨a.x + b.x, a.y + b.y⟩

def Vec2.sub (a b : Vec2) : Vec2 := ⟨a.x - b.x, a.y - b.y⟩

/-- Modelled from the spec: the `Angle` type (`src/base/math/angle.ts`, not
among the sources under verification) — a scalar rotation in degrees
(spec sections 3 and 6). -/
structure Angle where
  degrees : ℚ
  deriving DecidableEq

def Angle.from_degrees (d : ℚ) : Angle := ⟨d⟩

/-- Modelled from the spec: `Angle.rotate_point` rotates a point about a
pivot by the angle (spec section 6).  Schematic fields only take the
cardinal angles 0/90/180/270 (spec section 3); the model is exact at every
integer multiple of 90 degrees (counter-clockwise) and leaves points fixed
at other angles, which no claim exercises. -/
def Angle.rotate_point (a : Angle) (p pivot : Vec2) : Vec2 :=
  let v := p.sub pivot
  let q := a.degrees / 90
  let w : Vec2 :=
    if q.den = 1 then
      if q.num % 4 = 0 then v
      else if q.num % 4 = 1 then ⟨-v.y, v.x⟩
      else if q.num % 4 = 2 then ⟨-v.x, -v.y⟩
      else ⟨v.y, -v.x⟩
    else v
  w.add pivot

/-- Modelled from the spec: `Matrix3` (`src/base/math/matrix3.ts`, not among
the sources under verification) — a row-major 3x3 affine transform whose
coefficient array is `elements = [e0 e1 e2; e3 e4 e5; e6 e7 e8]`; applying
it to a point uses the first two rows (spec sections 3 and 6, and the
comment in `SchField.draw_rotation` describing `elements[1]`). -/
structure Matrix3 where
  e0 : ℚ
  e1 : ℚ
  e2 : ℚ
  e3 : ℚ
  e4 : ℚ
  e5 : ℚ
  e6 : ℚ
  e7 : ℚ
  e8 : ℚ
  deriving DecidableEq

def Matrix3.identity : Matrix3 := ⟨1, 0, 0, 0, 1, 0, 0, 0, 1⟩

def Matrix3.transform (m : Matrix3) (v : Vec2) : Vec2 :=
  ⟨m.e0 * v.x + m.e1 * v.y + m.e2, m.e3 * v.x + m.e4 * v.y + m.e5⟩

/-- Modelled from the spec: `BBox` (`src/base/math/bbox.ts`, not among the
sources under verification) — a box given by its `start` and `end` corners
(spec section 4, bounding_box steps 1 and 8), with `center` their
midpoint. -/
structure BBox where
  start : Vec2
  «end» : Vec2
  deriving DecidableEq

def BBox.center (b : BBox) : Vec2 :=
  ⟨(b.start.x + b.«end».x) / 2, (b.start.y + b.«end».y) / 2⟩

/-- Horizontal alignment enum from `src/text/font.ts` (spec section 3). -/
inductive HAlign where
  | left
  | center
  | right
  deriving DecidableEq

/-- Vertical alignment enum from `src/text/font.ts` (spec section 3). -/
inductive VAlign where
  | top
  | center
  | bottom
  deriving DecidableEq

/-- The `Parent` type of `sch_field.ts` lines 14-17: a record exposing a
position and a transform. -/
structure Parent where
  position : Vec2
  transform : Matrix3
  deriving DecidableEq

/-- The state of a `SchField`.  `text` is the constructor argument
(`sch_field.ts` line 26); `text_pos`, `text_angle`, `h_align` and `v_align`
are the attributes inherited from `EDAText` (`src/text/eda_text.ts`, not
among the sources under verification; modelled from the spec's data model,
section 3).  `text_box` is the output of the base text-layout primitive
`get_text_box()` — font-metrics code that the spec treats as an external
collaborator (spec sections 1 and 6) — carried here as data. -/
structure SchField where
  text : String
  text_pos : Vec2
  text_angle : Angle
  h_align : HAlign
  v_align : VAlign
  text_box : BBox
  parent : Option Parent
  deriving DecidableEq

/-- Diagnostic `console.log` events emitted by `SchField` getters
(`sch_field.ts` lines 82 and 152), modelled as trace entries carrying the
logged values. -/
inductive LogEvent where
  | initial_bb (b : BBox)
  | draw_rot (rot : ℚ) (center : Vec2)
  deriving DecidableEq

/-- `sch_field.ts` lines 30-35. -/
def SchField.shown_text (f : SchField) : String :=
  if f.text = "~" then "" else f.text

/-- `sch_field.ts` lines 37-68.  `this.parent?.transform ?? Matrix3.identity()`
is the match below; `Math.abs(parent_transform.elements[1]!) == 1` is the
absolute-value test on `e1`. -/
def SchField.draw_rotation (f : SchField) : Angle :=
  let this_deg := f.text_angle.degrees
  let parent_transform :=
    match f.parent with
    | some p => p.transform
    | none => Matrix3.identity
  let this_deg :=
    if |parent_transform.e1| = 1 then
      if this_deg = 0 ∨ this_deg = 180 then (90 : ℚ) else 0
    else this_deg
  Angle.from_degrees this_deg

/-- `sch_field.ts` lines 70-77. -/
def SchField.position (f : SchField) : Vec2 :=
  match f.parent with
  | some parent =>
    let relative_pos := f.text_pos.sub parent.position
    let relative_pos := parent.transform.transform relative_pos
    relative_pos.add parent.position
  | none => f.text_pos

/-- `sch_field.ts` lines 185-187 (the source declares `ref = 0` as a default;
both call sites pass it explicitly). -/
def mirror (v ref : ℚ) : ℚ := -(v - ref) + ref

/-- `sch_field.ts` lines 79-111.  The second component is the console trace:
line 82 logs the initial text box.  The `begin.y`/`end.y` mirror assignments
(lines 95-100) run only when a parent is present. -/
def SchField.bounding_box (f : SchField) : BBox × List LogEvent :=
  let bbox := f.text_box
  let log := [LogEvent.initial_bb bbox]
  let origin : Vec2 :=
    match f.parent with
    | some p => p.position
    | none => ⟨0, 0⟩
  let pos := f.text_pos.sub origin
  let begin1 := bbox.start.sub origin
  let end1 := bbox.«end».sub origin
  let begin2 := f.text_angle.rotate_point begin1 pos
  let end2 := f.text_angle.rotate_point end1 pos
  let begin3 : Vec2 :=
    if f.parent.isSome then ⟨begin2.x, mirror begin2.y pos.y⟩ else begin2
  let end3 : Vec2 :=
    if f.parent.isSome then ⟨end2.x, mirror end2.y pos.y⟩ else end2
  let transform :=
    match f.parent with
    | some p => p.transform
    | none => Matrix3.identity
  let bbox := { bbox with start := transform.transform begin3,
                          «end» := transform.transform end3 }
  let bbox := { bbox with start := bbox.start.add origin }
  (bbox, log)

/-- `sch_field.ts` lines 113-135.  The trace comes from the `bounding_box`
call on line 114. -/
def SchField.is_horiz_justify_flipped (f : SchField) : Bool × List LogEvent :=
  let r := f.bounding_box
  let center := r.1.center
  let pos := f.position
  let rot := (f.draw_rotation).degrees
  let is_vertical := rot = 90 ∨ rot = 270
  let b : Bool :=
    match f.h_align with
    | HAlign.left =>
      if is_vertical then decide (center.y > pos.y) else decide (center.x < pos.x)
    | HAlign.right =>
      if is_vertical then decide (center.y < pos.y) else decide (center.x > pos.x)
    | HAlign.center => false
  (b, r.2)

/-- `sch_field.ts` lines 137-146.  The `center` branch never reads
`is_horiz_justify_flipped`, so it emits no trace. -/
def SchField.effective_horiz_justify (f : SchField) : HAlign × List LogEvent :=
  match f.h_align with
  | HAlign.left =>
    let r := f.is_horiz_justify_flipped
    (if r.1 then HAlign.right else HAlign.left, r.2)
  | HAlign.right =>
    let r := f.is_horiz_justify_flipped
    (if r.1 then HAlign.left else HAlign.right, r.2)
  | HAlign.center => (HAlign.center, [])

/-- `sch_field.ts` lines 148-171.  The trace is the `bounding_box` trace from
line 149 followed by line 152's own `console.log("draw rot", rot, "center",
center)`. -/
def SchField.is_vert_justify_flipped (f : SchField) : Bool × List LogEvent :=
  let r := f.bounding_box
  let center := r.1.center
  let pos := f.position
  let rot := (f.draw_rotation).degrees
  let log := r.2 ++ [LogEvent.draw_rot rot center]
  let is_vertical := rot = 90 ∨ rot = 270
  let b : Bool :=
    match f.v_align with
    | VAlign.top =>
      if is_vertical then decide (center.x < pos.y) else decide (center.y < pos.y)
    | VAlign.bottom =>
      if is_vertical then decide (center.x > pos.x) else decide (center.y > pos.y)
    | VAlign.center => false
  (b, log)

/-- `sch_field.ts` lines 173-182.  The `center` branch never reads
`is_vert_justify_flipped`, so it emits no trace. -/
def SchField.effective_vert_justify (f : SchField) : VAlign × List LogEvent :=
  match f.v_align with
  | VAlign.top =>
    let r := f.is_vert_justify_flipped
    (if r.1 then VAlign.bottom else VAlign.top, r.2)
  | VAlign.bottom =>
    let r := f.is_vert_justify_flipped
    (if r.1 then VAlign.top else VAlign.bottom, r.2)
  | VAlign.center => (VAlign.center, [])

/-! ## Spec-side definitions

These re-state, in the words of the specification and of the claims, the
values that the code above is claimed to compute.  They are deliberately
written from the spec text, to be compared with the source translations. -/

/-- The spec's "origin": the parent's position when present, else `(0,0)`
(spec section 4, bounding_box step 2). -/
def fieldOrigin (f : SchField) : Vec2 :=
  match f.parent with
  | some p => p.position
  | none => ⟨0, 0⟩

/-- The spec's transform for the bounding box: the parent's transform when
present, else the identity (spec section 4, bounding_box step 6). -/
def fieldTransform (f : SchField) : Matrix3 :=
  match f.parent with
  | some p => p.transform
  | none => Matrix3.identity

/-- The box corners after bounding_box steps 2-4 of the spec: both corners
translated by `-origin` and rotated about pivot `pos = text_pos - origin`
by `text_angle`. -/
def rotatedCorners (f : SchField) : Vec2 × Vec2 :=
  let origin := fieldOrigin f
  let pos := f.text_pos.sub origin
  (f.text_angle.rotate_point (f.text_box.start.sub origin) pos,
   f.text_angle.rotate_point (f.text_box.«end».sub origin) pos)

/-- The box corners after bounding_box steps 2-6 of the spec: the rotated
corners, Y-mirrored about `pos.y` when a parent is present, then mapped by
the parent transform (or identity).  This is the "transform-output space"
of claim C2: the final `+origin` translation has not yet been applied to
either corner. -/
def transformedCorners (f : SchField) : Vec2 × Vec2 :=
  let origin := fieldOrigin f
  let pos := f.text_pos.sub origin
  let rc := rotatedCorners f
  let b : Vec2 := if f.parent.isSome then ⟨rc.1.x, 2 * pos.y - rc.1.y⟩ else rc.1
  let e : Vec2 := if f.parent.isSome then ⟨rc.2.x, 2 * pos.y - rc.2.y⟩ else rc.2
  ((fieldTransform f).transform b, (fieldTransform f).transform e)

/-- The draw-rotation rule in the words of claim C1: with `this_deg` the
field's authored degrees and `T` the parent transform (identity when no
parent), if `|T.e1| = 1` the result is 90 when `this_deg` is 0 or 180 and 0
otherwise; if `|T.e1| ≠ 1` the degrees pass through unchanged. -/
def drawRotationSpec (f : SchField) : ℚ :=
  let this_deg := f.text_angle.degrees
  let T :=
    match f.parent with
    | some p => p.transform
    | none => Matrix3.identity
  if |T.e1| = 1 then
    if this_deg = 0 ∨ this_deg = 180 then (90 : ℚ) else 0
  else this_deg

/-- The horizontal flip rule in the words of claim C5, over the values
returned by `bounding_box`, `position` and `draw_rotation`. -/
def horizFlippedSpec (f : SchField) : Bool :=
  let center := (f.bounding_box).1.center
  let pos := f.position
  let rot := (f.draw_rotation).degrees
  let vertical := rot = 90 ∨ rot = 270
  match f.h_align with
  | HAlign.left =>
    if vertical then decide (center.y > pos.y) else decide (center.x < pos.x)
  | HAlign.right =>
    if vertical then decide (center.y < pos.y) else decide (center.x > pos.x)
  | HAlign.center => false

/-- The vertical flip rule in the words of claim C4, including the
mismatched-axis comparison `center.x < pos.y` in the vertical `top`
branch. -/
def vertFlippedSpec (f : SchField) : Bool :=
  let center := (f.bounding_box).1.center
  let pos := f.position
  let rot := (f.draw_rotation).degrees
  let vertical := rot = 90 ∨ rot = 270
  match f.v_align with
  | VAlign.top =>
    if vertical then decide (center.x < pos.y) else decide (center.y < pos.y)
  | VAlign.bottom =>
    if vertical then decide (center.x > pos.x) else decide (center.y > pos.y)
  | VAlign.center => false

/-! ## Helper lemmas about the modelled primitives -/

theorem Matrix3.identity_transform (v : Vec2) : Matrix3.identity.transform v = v := by
  simp [Matrix3.identity, Matrix3.transform]

theorem Vec2.sub_zero_vec (v : Vec2) : v.sub ⟨0, 0⟩ = v := by
  simp [Vec2.sub]

theorem Vec2.add_zero_vec (v : Vec2) : v.add ⟨0, 0⟩ = v := by
  simp [Vec2.add]

theorem Vec2.sub_add_cancel_vec (v w : Vec2) : (v.sub w).add w = v := by
  simp [Vec2.sub, Vec2.add]

theorem Vec2.add_right_ne (v w : Vec2) (hw : w ≠ (⟨0, 0⟩ : Vec2)) :
    v.add w ≠ v := by
  intro h
  apply hw
  cases v with
  | mk vx vy =>
    cases w with
    | mk wx wy =>
      simp only [Vec2.add, Vec2.mk.injEq] at h ⊢
      constructor
      · linarith [h.1]
      · linarith [h.2]

/-- The mirror helper in the arithmetic form the spec uses in bounding_box
step 5: mirroring `v` about `ref` yields `2*ref - v`. -/
theorem mirror_eq (v ref : ℚ) : mirror v ref = 2 * ref - v := by
  simp [mirror]; ring

/-! ## Claims -/

/-- C1: for every field, `draw_rotation` computes exactly the rule of the
spec — with `this_deg = text_angle.degrees` and `T` the parent transform
(identity when no parent), if `|T.elements[1]| = 1` the result is 90 when
`this_deg` is 0 or 180 and 0 otherwise, and `this_deg` passes through
unchanged when the magnitude is not 1 (including the no-parent case); in
particular, with a parent transform whose entry-1 magnitude is 1 and
`text_angle = 0`, `draw_rotation().degrees = 90`. -/
theorem C1_draw_rotation_formula :
    (∀ f : SchField, (f.draw_rotation).degrees = drawRotationSpec f) ∧
    (SchField.draw_rotation
      ⟨"REF1", ⟨10, 5⟩, ⟨0⟩, HAlign.left, VAlign.top, ⟨⟨0, 0⟩, ⟨2, 1⟩⟩,
        some ⟨⟨0, 0⟩, ⟨0, -1, 0, -1, 0, 0, 0, 0, 1⟩⟩⟩).degrees = 90 := by
  constructor
  · intro f
    rfl
  · decide

/-- C3: `position()` returns `text_pos` unchanged without a parent, and
`parent.transform (text_pos - parent.position) + parent.position` with
one. -/
theorem C3_position_formula :
    ∀ f : SchField,
      (f.parent = none → f.position = f.text_pos) ∧
      (∀ p : Parent, f.parent = some p →
        f.position = (p.transform.transform (f.text_pos.sub p.position)).add p.position) := by
  intro f
  constructor
  · intro hp
    simp [SchField.position, hp]
  · intro p hp
    simp [SchField.position, hp]

/-- C3 witness: an unparented field at `(10,5)` keeps its position, and a
field at `(3,4)` with a parent at `(1,2)` carrying the 90-degree KiCAD
matrix is mapped through the parent's frame. -/
theorem C3_position_formula_witness :
    SchField.position
      ⟨"REF1", ⟨10, 5⟩, ⟨0⟩, HAlign.left, VAlign.top, ⟨⟨0, 0⟩, ⟨2, 1⟩⟩, none⟩ = ⟨10, 5⟩ ∧
    SchField.position
      ⟨"U1", ⟨3, 4⟩, ⟨0⟩, HAlign.left, VAlign.top, ⟨⟨0, 0⟩, ⟨2, 1⟩⟩,
        some ⟨⟨1, 2⟩, ⟨0, -1, 0, -1, 0, 0, 0, 0, 1⟩⟩⟩ =
      (Matrix3.transform ⟨0, -1, 0, -1, 0, 0, 0, 0, 1⟩ (Vec2.sub ⟨3, 4⟩ ⟨1, 2⟩)).add ⟨1, 2⟩ :=
  ⟨(C3_position_formula
      ⟨"REF1", ⟨10, 5⟩, ⟨0⟩, HAlign.left, VAlign.top, ⟨⟨0, 0⟩, ⟨2, 1⟩⟩, none⟩).1 rfl,
   (C3_position_formula
      ⟨"U1", ⟨3, 4⟩, ⟨0⟩, HAlign.left, VAlign.top, ⟨⟨0, 0⟩, ⟨2, 1⟩⟩,
        some ⟨⟨1, 2⟩, ⟨0, -1, 0, -1, 0, 0, 0, 0, 1⟩⟩⟩).2
      ⟨⟨1, 2⟩, ⟨0, -1, 0, -1, 0, 0, 0, 0, 1⟩⟩ rfl⟩

/-- C8 counterexample: the claim's "returns the empty string if and only if
`text` is exactly `"~"`" fails at `text = ""` — `shown_text` is the empty
string there although `text` is not `"~"`. -/
theorem C8_shown_text_counterexample :
    SchField.shown_text
      ⟨"", ⟨0, 0⟩, ⟨0⟩, HAlign.left, VAlign.top, ⟨⟨0, 0⟩, ⟨0, 0⟩⟩, none⟩ = "" ∧
    (SchField.mk "" ⟨0, 0⟩ ⟨0⟩ HAlign.left VAlign.top ⟨⟨0, 0⟩, ⟨0, 0⟩⟩ none).text ≠ "~" := by
  constructor
  · rfl
  · decide

/-- C8 (amended): `shown_text()` returns the empty string when `text` is
exactly `"~"` and returns `text` unchanged for every other string
(including strings that merely contain `"~"`, and the empty string, for
which the output is empty as well). -/
theorem C8_shown_text_amended :
    ∀ f : SchField,
      (f.text = "~" → f.shown_text = "") ∧
      (f.text ≠ "~" → f.shown_text = f.text) := by
  intro f
  constructor
  · intro h
    simp [SchField.shown_text, h]
  · intro h
    simp [SchField.shown_text, h]

/-- C8 witness: a field whose text is `"~"` shows as empty; a field whose
text is `"a~b"` (merely containing `"~"`) passes through unchanged. -/
theorem C8_shown_text_amended_witness :
    SchField.shown_text
      ⟨"~", ⟨0, 0⟩, ⟨0⟩, HAlign.left, VAlign.top, ⟨⟨0, 0⟩, ⟨0, 0⟩⟩, none⟩ = "" ∧
    SchField.shown_text
      ⟨"a~b", ⟨0, 0⟩, ⟨0⟩, HAlign.left, VAlign.top, ⟨⟨0, 0⟩, ⟨0, 0⟩⟩, none⟩ = "a~b" :=
  ⟨(C8_shown_text_amended
      ⟨"~", ⟨0, 0⟩, ⟨0⟩, HAlign.left, VAlign.top, ⟨⟨0, 0⟩, ⟨0, 0⟩⟩, none⟩).1 rfl,
   (C8_shown_text_amended
      ⟨"a~b", ⟨0, 0⟩, ⟨0⟩, HAlign.left, VAlign.top, ⟨⟨0, 0⟩, ⟨0, 0⟩⟩, none⟩).2 (by decide)⟩

/-- C9 counterexample: `bounding_box` is not side-effect free — on a
concrete unparented field its `console.log` trace is non-empty (it logs the
initial text box, `sch_field.ts` line 82). -/
theorem C9_side_effect_counterexample :
    (SchField.bounding_box
      ⟨"REF1", ⟨0, 0⟩, ⟨0⟩, HAlign.left, VAlign.top, ⟨⟨0, 0⟩, ⟨2, 1⟩⟩, none⟩).2 ≠ [] := by
  decide

/-- C9 (amended): every accessor is a pure, deterministic function of the
field's own attributes and the parent's current position and transform —
the embedding threads no mutable state, so no accessor mutates the field or
parent and two calls over the same state return equal results — but the
accessors are not free of side effects: `bounding_box` and
`is_vert_justify_flipped` emit diagnostic console logs, inherited by the
justification accessors that call them.  This theorem characterises each
accessor's complete log trace (the non-listed accessors `shown_text`,
`draw_rotation` and `position` are log-free by their types). -/
theorem C9_accessor_traces :
    ∀ f : SchField,
      (f.bounding_box).2 = [LogEvent.initial_bb f.text_box] ∧
      (f.is_horiz_justify_flipped).2 = [LogEvent.initial_bb f.text_box] ∧
      (f.is_vert_justify_flipped).2 =
        [LogEvent.initial_bb f.text_box,
         LogEvent.draw_rot (f.draw_rotation).degrees (f.bounding_box).1.center] ∧
      (f.effective_horiz_justify).2 =
        (match f.h_align with
         | HAlign.center => ([] : List LogEvent)
         | _ => [LogEvent.initial_bb f.text_box]) ∧
      (f.effective_vert_justify).2 =
        (match f.v_align with
         | VAlign.center => ([] : List LogEvent)
         | _ => [LogEvent.initial_bb f.text_box,
                 LogEvent.draw_rot (f.draw_rotation).degrees (f.bounding_box).1.center]) := by
  intro f
  refine ⟨rfl, rfl, rfl, ?_, ?_⟩
  · cases h : f.h_align <;> simp [SchField.effective_horiz_justify, h] <;> rfl
  · cases h : f.v_align <;> simp [SchField.effective_vert_justify, h] <;> rfl

/-- C10: with a parent whose transform is the identity matrix, `position()`
collapses to `text_pos` for every parent position. -/
theorem C10_identity_parent_position :
    ∀ (f : SchField) (p : Parent), f.parent = some p →
      p.transform = Matrix3.identity → f.position = f.text_pos := by
  intro f p hp ht
  simp [SchField.position, hp, ht, Matrix3.identity_transform, Vec2.sub_add_cancel_vec]

/-- C10 witness: a field at `(3,4)` whose parent sits at `(5,7)` with the
identity transform keeps `position() = (3,4)`. -/
theorem C10_identity_parent_position_witness :
    SchField.position
      ⟨"U2", ⟨3, 4⟩, ⟨0⟩, HAlign.left, VAlign.top, ⟨⟨0, 0⟩, ⟨2, 1⟩⟩,
        some ⟨⟨5, 7⟩, Matrix3.identity⟩⟩ = ⟨3, 4⟩ :=
  C10_identity_parent_position
    ⟨"U2", ⟨3, 4⟩, ⟨0⟩, HAlign.left, VAlign.top, ⟨⟨0, 0⟩, ⟨2, 1⟩⟩,
      some ⟨⟨5, 7⟩, Matrix3.identity⟩⟩
    ⟨⟨5, 7⟩, Matrix3.identity⟩ rfl rfl

/-- The effective horizontal justification rule in the words of claim C5:
left maps to right and right to left exactly when flipped, center is
unchanged. -/
def effectiveHorizSpec (f : SchField) : HAlign :=
  match f.h_align with
  | HAlign.left => if horizFlippedSpec f then HAlign.right else HAlign.left
  | HAlign.right => if horizFlippedSpec f then HAlign.left else HAlign.right
  | HAlign.center => HAlign.center

/-- The effective vertical justification rule in the words of claim C4:
top and bottom swap exactly when flipped, center is unchanged. -/
def effectiveVertSpec (f : SchField) : VAlign :=
  match f.v_align with
  | VAlign.top => if vertFlippedSpec f then VAlign.bottom else VAlign.top
  | VAlign.bottom => if vertFlippedSpec f then VAlign.top else VAlign.bottom
  | VAlign.center => VAlign.center

/-- C2: in `bounding_box()`, after both corners go through the parent
transform (or identity), only the `start` corner is translated back by
`+origin` — the `end` corner stays in transform-output space — and for
every field whose parent has a non-zero position the returned `end` corner
differs from the symmetric `end + origin` placement. -/
theorem C2_bbox_end_not_offset :
    ∀ f : SchField,
      (f.bounding_box).1.start = ((transformedCorners f).1).add (fieldOrigin f) ∧
      (f.bounding_box).1.«end» = (transformedCorners f).2 ∧
      (∀ p : Parent, f.parent = some p → p.position ≠ (⟨0, 0⟩ : Vec2) →
        (f.bounding_box).1.«end» ≠ ((transformedCorners f).2).add p.position) := by
  intro f
  have hmain : (f.bounding_box).1.start = ((transformedCorners f).1).add (fieldOrigin f) ∧
      (f.bounding_box).1.«end» = (transformedCorners f).2 := by
    cases hp : f.parent with
    | none =>
      constructor <;>
        simp [SchField.bounding_box, transformedCorners, fieldOrigin, fieldTransform,
          rotatedCorners, hp]
    | some p =>
      constructor <;>
        simp [SchField.bounding_box, transformedCorners, fieldOrigin, fieldTransform,
          rotatedCorners, hp, mirror_eq]
  refine ⟨hmain.1, hmain.2, ?_⟩
  intro p hp hpos
  rw [hmain.2]
  exact (Vec2.add_right_ne _ _ hpos).symm

/-- C2 witness: a field with text box `(2,3)-(6,5)` under a parent at
`(1,2)` with the 90-degree KiCAD matrix returns `end = (-1,-5)`, which is
not the symmetric `end + origin` placement. -/
theorem C2_bbox_end_not_offset_witness :
    (SchField.bounding_box
      ⟨"U1", ⟨3, 4⟩, ⟨0⟩, HAlign.left, VAlign.top, ⟨⟨2, 3⟩, ⟨6, 5⟩⟩,
        some ⟨⟨1, 2⟩, ⟨0, -1, 0, -1, 0, 0, 0, 0, 1⟩⟩⟩).1.«end» ≠
      ((transformedCorners
        ⟨"U1", ⟨3, 4⟩, ⟨0⟩, HAlign.left, VAlign.top, ⟨⟨2, 3⟩, ⟨6, 5⟩⟩,
          some ⟨⟨1, 2⟩, ⟨0, -1, 0, -1, 0, 0, 0, 0, 1⟩⟩⟩).2).add (⟨1, 2⟩ : Vec2) ∧
    (SchField.bounding_box
      ⟨"U1", ⟨3, 4⟩, ⟨0⟩, HAlign.left, VAlign.top, ⟨⟨2, 3⟩, ⟨6, 5⟩⟩,
        some ⟨⟨1, 2⟩, ⟨0, -1, 0, -1, 0, 0, 0, 0, 1⟩⟩⟩).1.«end» = ⟨-1, -5⟩ := by
  have h := (C2_bbox_end_not_offset
    ⟨"U1", ⟨3, 4⟩, ⟨0⟩, HAlign.left, VAlign.top, ⟨⟨2, 3⟩, ⟨6, 5⟩⟩,
      some ⟨⟨1, 2⟩, ⟨0, -1, 0, -1, 0, 0, 0, 0, 1⟩⟩⟩).2.2
    ⟨⟨1, 2⟩, ⟨0, -1, 0, -1, 0, 0, 0, 0, 1⟩⟩ rfl (by simp)
  refine ⟨h, ?_⟩
  norm_num [SchField.bounding_box, Angle.rotate_point, mirror, Matrix3.transform,
    Vec2.sub, Vec2.add]

/-- C4: `is_vert_justify_flipped()` follows the claim's rule exactly,
including the mismatched-axis comparison `center.x < pos.y` in the
vertical `top` branch and `center.x > pos.x` in the vertical `bottom`
branch, and `effective_vert_justify()` swaps top and bottom exactly when
flipped, leaving center unchanged. -/
theorem C4_vert_justify_formula :
    ∀ f : SchField,
      (f.is_vert_justify_flipped).1 = vertFlippedSpec f ∧
      (f.effective_vert_justify).1 = effectiveVertSpec f := by
  intro f
  constructor
  · rfl
  · cases h : f.v_align <;>
      simp [SchField.effective_vert_justify, effectiveVertSpec, h] <;> rfl

/-- C5: `is_horiz_justify_flipped()` follows the claim's comparisons
(`center.y > pos.y` vertical / `center.x < pos.x` otherwise for left,
reversed for right, never for center), and `effective_horiz_justify()`
maps left to right and right to left exactly when flipped, leaving center
unchanged. -/
theorem C5_horiz_justify_formula :
    ∀ f : SchField,
      (f.is_horiz_justify_flipped).1 = horizFlippedSpec f ∧
      (f.effective_horiz_justify).1 = effectiveHorizSpec f := by
  intro f
  constructor
  · rfl
  · cases h : f.h_align <;>
      simp [SchField.effective_horiz_justify, effectiveHorizSpec, h] <;> rfl

/-- C6: for every field without a parent, `position()` is `text_pos`,
`draw_rotation()` is `text_angle`, and `bounding_box()` is the base text
box with both corners rotated about pivot `text_pos` by `text_angle`,
with no Y mirroring and no transform applied. -/
theorem C6_unparented_defaults :
    ∀ f : SchField, f.parent = none →
      f.position = f.text_pos ∧
      f.draw_rotation = f.text_angle ∧
      (f.bounding_box).1 =
        ⟨f.text_angle.rotate_point f.text_box.start f.text_pos,
         f.text_angle.rotate_point f.text_box.«end» f.text_pos⟩ := by
  intro f hp
  refine ⟨?_, ?_, ?_⟩
  · simp [SchField.position, hp]
  · simp [SchField.draw_rotation, hp, Matrix3.identity]
    rfl
  · simp [SchField.bounding_box, hp, Vec2.sub_zero_vec, Vec2.add_zero_vec,
      Matrix3.identity_transform]

/-- C6 witness: an unparented field at `(1,2)` rotated 90 degrees with base
box `(0,0)-(4,2)` keeps its position and angle, and its bounding box is
the base box rotated about `(1,2)`. -/
theorem C6_unparented_defaults_witness :
    SchField.position
      ⟨"x", ⟨1, 2⟩, ⟨90⟩, HAlign.left, VAlign.top, ⟨⟨0, 0⟩, ⟨4, 2⟩⟩, none⟩ = ⟨1, 2⟩ ∧
    SchField.draw_rotation
      ⟨"x", ⟨1, 2⟩, ⟨90⟩, HAlign.left, VAlign.top, ⟨⟨0, 0⟩, ⟨4, 2⟩⟩, none⟩ = ⟨90⟩ ∧
    (SchField.bounding_box
      ⟨"x", ⟨1, 2⟩, ⟨90⟩, HAlign.left, VAlign.top, ⟨⟨0, 0⟩, ⟨4, 2⟩⟩, none⟩).1 =
      ⟨⟨3, 1⟩, ⟨1, 5⟩⟩ := by
  have h := C6_unparented_defaults
    ⟨"x", ⟨1, 2⟩, ⟨90⟩, HAlign.left, VAlign.top, ⟨⟨0, 0⟩, ⟨4, 2⟩⟩, none⟩ rfl
  refine ⟨h.1, h.2.1, ?_⟩
  rw [h.2.2]
  norm_num [Angle.rotate_point, Vec2.sub, Vec2.add]

/-- C7: the Y-mirroring step of `bounding_box()` runs exactly when a parent
is present — with a parent, each corner's y after rotation about pivot
`pos` is replaced by `2*pos.y - y` before the parent transform is applied;
without a parent the rotated corners pass through unmirrored (and
untransformed). -/
theorem C7_mirror_iff_parent :
    ∀ f : SchField,
      (∀ p : Parent, f.parent = some p →
        (f.bounding_box).1.start =
          ((p.transform.transform
            ⟨(rotatedCorners f).1.x,
             2 * (f.text_pos.sub p.position).y - (rotatedCorners f).1.y⟩).add p.position) ∧
        (f.bounding_box).1.«end» =
          p.transform.transform
            ⟨(rotatedCorners f).2.x,
             2 * (f.text_pos.sub p.position).y - (rotatedCorners f).2.y⟩) ∧
      (f.parent = none →
        (f.bounding_box).1 = ⟨(rotatedCorners f).1, (rotatedCorners f).2⟩) := by
  intro f
  constructor
  · intro p hp
    constructor <;>
      simp [SchField.bounding_box, rotatedCorners, fieldOrigin, hp, mirror_eq]
  · intro hp
    simp [SchField.bounding_box, rotatedCorners, fieldOrigin, hp, Vec2.add_zero_vec,
      Matrix3.identity_transform]

/-- C7 witness: for the parented field of the C2 witness the returned
corners are the mirrored-then-transformed values `start = (-2,1)` and
`end = (-1,-5)`. -/
theorem C7_mirror_iff_parent_witness :
    (SchField.bounding_box
      ⟨"U1", ⟨3, 4⟩, ⟨0⟩, HAlign.left, VAlign.top, ⟨⟨2, 3⟩, ⟨6, 5⟩⟩,
        some ⟨⟨1, 2⟩, ⟨0, -1, 0, -1, 0, 0, 0, 0, 1⟩⟩⟩).1.start = ⟨-2, 1⟩ ∧
    (SchField.bounding_box
      ⟨"U1", ⟨3, 4⟩, ⟨0⟩, HAlign.left, VAlign.top, ⟨⟨2, 3⟩, ⟨6, 5⟩⟩,
        some ⟨⟨1, 2⟩, ⟨0, -1, 0, -1, 0, 0, 0, 0, 1⟩⟩⟩).1.«end» = ⟨-1, -5⟩ := by
  have h := (C7_mirror_iff_parent
    ⟨"U1", ⟨3, 4⟩, ⟨0⟩, HAlign.left, VAlign.top, ⟨⟨2, 3⟩, ⟨6, 5⟩⟩,
      some ⟨⟨1, 2⟩, ⟨0, -1, 0, -1, 0, 0, 0, 0, 1⟩⟩⟩).1
    ⟨⟨1, 2⟩, ⟨0, -1, 0, -1, 0, 0, 0, 0, 1⟩⟩ rfl
  constructor
  · rw [h.1]
    norm_num [rotatedCorners, fieldOrigin, Angle.rotate_point, Matrix3.transform,
      Vec2.sub, Vec2.add]
  · rw [h.2]
    norm_num [rotatedCorners, fieldOrigin, Angle.rotate_point, Matrix3.transform,
      Vec2.sub, Vec2.add]
